import Mathlib

/-!
Shallow embedding of the loan-underwriting pipeline of
`src/function_app.py` (tools `get_risk_profile`, `validate_loan_application`,
`calculate_loan_terms`, `evaluate_loan_risk`, `generate_loan_decision`).

Modelling conventions:
* JSON numbers are embedded as `ℚ`. Decimal literals of the source are
  transliterated as integer fractions (`0.035` ↦ `35/1000`, and so on)
  because Lean's scientific-notation literals for `ℚ` do not reduce in the
  kernel; the denoted rationals are identical.
* An argument map is embedded as a structure of `Option` fields, one per
  property the handler reads; `none` models an absent key.
* Python truthiness (`if not all([...])`, `if not args.get(f)`) is modelled
  by `truthyQ` / `truthyS`: `None`, `0` and `""` are falsy.
* `str.lower()` is modelled by `pyLower`, character-wise ASCII lowercasing
  (every vehicle-type key in the source is ASCII).
* `round(x, d)` is modelled by `roundTo d`. Python rounds halves to even,
  Mathlib's `round` rounds halves up; no value rounded in this development
  sits on a half-boundary, so the two agree on everything proved here.
* Each handler's outer `try/except` and JSON-parsing wrapper is outside the
  model: we embed the handler body from the point where the `arguments`
  map has been extracted, which is where every claim lives.
-/

namespace FunctionApp

/-- Python truthiness of an optional numeric argument value. -/
def truthyQ : Option ℚ → Bool
  | none => false
  | some x => x != 0

/-- Python truthiness of an optional string argument value. -/
def truthyS : Option String → Bool
  | none => false
  | some s => s != ""

/-- `str.lower()` from Python, character-wise (ASCII). -/
def pyLower (s : String) : String := ⟨s.data.map Char.toLower⟩

/-- `round(x, d)` from the source, modelled with Mathlib's `round`. -/
def roundTo (d : ℕ) (x : ℚ) : ℚ := (round (x * 10 ^ d) : ℚ) / 10 ^ d

/-! ## Risk Scorer (`get_risk_profile`) -/

/-- The three risk-tier labels `"low" | "medium" | "high"`. -/
inductive RiskLevel
  | low
  | medium
  | high
deriving DecidableEq, Repr

/-- Credit-score contribution to `risk_score` in `get_risk_profile`. -/
def riskCreditPoints (credit_score : ℚ) : ℕ :=
  if credit_score ≥ 750 then 20
  else if credit_score ≥ 700 then 15
  else if credit_score ≥ 650 then 10
  else 5

/-- Loan-amount contribution to `risk_score` in `get_risk_profile`. -/
def riskAmountPoints (loan_amount : ℚ) : ℕ :=
  if loan_amount ≤ 30000 then 15
  else if loan_amount ≤ 60000 then 10
  else 5

/-- `risk_score` accumulated by `get_risk_profile`. -/
def risk_score (credit_score loan_amount : ℚ) : ℕ :=
  riskCreditPoints credit_score + riskAmountPoints loan_amount

/-- `overall_risk` in `get_risk_profile`. -/
def overall_risk (score : ℕ) : RiskLevel :=
  if score ≥ 30 then .low else if score ≥ 20 then .medium else .high

/-- `probability_of_default` chosen from `overall_risk`
(`0.02 / 0.08 / 0.15`). -/
def probability_of_default : RiskLevel → ℚ
  | .low => mkRat 2 100
  | .medium => mkRat 8 100
  | .high => mkRat 15 100

/-- `recommended_rate` chosen from `overall_risk` (`0.035 / 0.055 / 0.085`). -/
def recommended_rate : RiskLevel → ℚ
  | .low => mkRat 35 1000
  | .medium => mkRat 55 1000
  | .high => mkRat 85 1000

/-- The informational `credit_risk` label in `get_risk_profile`. -/
def credit_risk (credit_score : ℚ) : RiskLevel :=
  if credit_score ≥ 750 then .low else if credit_score ≥ 650 then .medium else .high

/-- The informational `amount_risk` label in `get_risk_profile`. -/
def amount_risk (loan_amount : ℚ) : RiskLevel :=
  if loan_amount ≤ 50000 then .low else if loan_amount ≤ 80000 then .medium else .high

/-- Argument map read by `get_risk_profile`. -/
structure RiskArgs where
  customer_id : Option String
  loan_amount : Option ℚ
  credit_score : Option ℚ
deriving DecidableEq

/-- The successful payload of `get_risk_profile` (the fields of the
`risk_assessment` object that the claims are about). -/
structure RiskProfileOk where
  customer_id : String
  loan_amount : ℚ
  credit_score : ℚ
  overall_risk_level : RiskLevel
  risk_score : ℕ
  credit_risk : RiskLevel
  amount_risk : RiskLevel
  probability_of_default : ℚ
  recommended_interest_rate : ℚ
deriving DecidableEq

/-- Result of `get_risk_profile`: the `{"error": ...}` object or a profile. -/
inductive RiskResult
  | error (msg : String)
  | ok (p : RiskProfileOk)
deriving DecidableEq

/-- `get_risk_profile` from the argument map down (the `if not all([...])`
guard followed by the score computation). -/
def get_risk_profile (args : RiskArgs) : RiskResult :=
  if !(truthyS args.customer_id && truthyQ args.loan_amount &&
       truthyQ args.credit_score) then
    .error "customer_id, loan_amount, and credit_score are required"
  else
    let cs := args.credit_score.getD 0
    let la := args.loan_amount.getD 0
    let s := risk_score cs la
    let lvl := overall_risk s
    .ok ⟨args.customer_id.getD "", la, cs, lvl, s, credit_risk cs, amount_risk la,
         probability_of_default lvl, recommended_rate lvl⟩

/-! ## Term Calculator (`calculate_loan_terms`) -/

/-- Base interest rate by credit tier in `calculate_loan_terms`
(`0.035 / 0.045 / 0.065 / 0.085`). -/
def base_rate (credit_score : ℚ) : ℚ :=
  if credit_score ≥ 750 then mkRat 35 1000
  else if credit_score ≥ 700 then mkRat 45 1000
  else if credit_score ≥ 650 then mkRat 65 1000
  else mkRat 85 1000

/-- `rate_adjustments.get(vehicle_type.lower(), 0.0)` in
`calculate_loan_terms`. -/
def rate_adjustment (vehicle_type : String) : ℚ :=
  let k := pyLower vehicle_type
  if k = "new_car" then 0
  else if k = "used_car" then mkRat 5 1000
  else if k = "luxury_vehicle" then mkRat 5 1000
  else if k = "commercial_vehicle" then mkRat 10 1000
  else if k = "electric_vehicle" then mkRat (-25) 10000
  else if k = "classic_vehicle" then mkRat 15 1000
  else 0

/-- `default_terms.get(vehicle_type.lower(), 60)` in `calculate_loan_terms`. -/
def default_term (vehicle_type : String) : ℕ :=
  let k := pyLower vehicle_type
  if k = "new_car" then 72
  else if k = "used_car" then 60
  else if k = "luxury_vehicle" then 60
  else if k = "commercial_vehicle" then 48
  else if k = "electric_vehicle" then 72
  else if k = "classic_vehicle" then 48
  else 60

/-- The amortized-payment computation of `calculate_loan_terms`, including
its zero-rate guard. -/
def amortized_payment (loan_amount rate : ℚ) (n : ℕ) : ℚ :=
  let monthly_rate := rate / 12
  if monthly_rate = 0 then loan_amount / (n : ℚ)
  else
    loan_amount * (monthly_rate * (1 + monthly_rate) ^ n) /
      ((1 + monthly_rate) ^ n - 1)

/-- Fields of the `loan_terms` object returned by `calculate_loan_terms`. -/
structure LoanTermsOk where
  interest_rate : ℚ
  interest_rate_decimal : ℚ
  loan_term_months : ℕ
  monthly_payment : ℚ
  total_payment : ℚ
  total_interest : ℚ
deriving DecidableEq

/-- Result of `calculate_loan_terms`. -/
inductive TermsResult
  | error (msg : String)
  | ok (t : LoanTermsOk)
deriving DecidableEq

/-- Argument map read by `calculate_loan_terms`. -/
structure TermsArgs where
  loan_amount : Option ℚ
  credit_score : Option ℚ
  vehicle_type : Option String
deriving DecidableEq

/-- `calculate_loan_terms` from the argument map down. -/
def calculate_loan_terms (args : TermsArgs) : TermsResult :=
  let vehicle_type := args.vehicle_type.getD "standard"
  if !(truthyQ args.loan_amount && truthyQ args.credit_score) then
    .error "loan_amount and credit_score are required"
  else
    let loan_amount := args.loan_amount.getD 0
    let credit_score := args.credit_score.getD 0
    let final_rate := base_rate credit_score + rate_adjustment vehicle_type
    let loan_term_months := default_term vehicle_type
    let monthly_payment := amortized_payment loan_amount final_rate loan_term_months
    let total_payment := monthly_payment * loan_term_months
    let total_interest := total_payment - loan_amount
    .ok ⟨roundTo 3 (final_rate * 100), final_rate, loan_term_months,
         roundTo 2 monthly_payment, roundTo 2 total_payment,
         roundTo 2 total_interest⟩

/-! ## Comprehensive Risk Evaluator (`evaluate_loan_risk`) -/

/-- The four risk labels of `evaluate_loan_risk`. -/
inductive EvalRiskLevel
  | low
  | medium
  | medium_high
  | high
deriving DecidableEq, Repr

/-- The recommendation labels of `evaluate_loan_risk`. -/
inductive Recommendation
  | approve
  | approve_with_conditions
  | manual_review
  | reject
deriving DecidableEq, Repr

/-- `credit_score_factor` (40% weight) in `evaluate_loan_risk`. -/
def evalCreditFactor (credit_score : ℚ) : ℕ :=
  if credit_score ≥ 750 then 40
  else if credit_score ≥ 700 then 30
  else if credit_score ≥ 650 then 20
  else 10

/-- `loan_amount_factor` (35% weight) in `evaluate_loan_risk`. -/
def evalAmountFactor (loan_amount : ℚ) : ℕ :=
  if loan_amount ≤ 25000 then 35
  else if loan_amount ≤ 50000 then 25
  else if loan_amount ≤ 75000 then 15
  else 5

/-- `vehicle_risk_weights.get(vehicle_type.lower(), 18)` in
`evaluate_loan_risk`. -/
def vehicle_risk_weight (vehicle_type : String) : ℕ :=
  let k := pyLower vehicle_type
  if k = "new_car" then 25
  else if k = "used_car" then 20
  else if k = "electric_vehicle" then 23
  else if k = "luxury_vehicle" then 15
  else if k = "commercial_vehicle" then 10
  else if k = "classic_vehicle" then 8
  else 18

/-- `overall_risk_score` in `evaluate_loan_risk`. -/
def eval_risk_score (credit_score loan_amount : ℚ) (vehicle_type : String) : ℕ :=
  evalCreditFactor credit_score + evalAmountFactor loan_amount +
    vehicle_risk_weight vehicle_type

/-- Risk level by score band in `evaluate_loan_risk`. -/
def evalLevel (score : ℕ) : EvalRiskLevel :=
  if score ≥ 80 then .low
  else if score ≥ 60 then .medium
  else if score ≥ 40 then .medium_high
  else .high

/-- Recommendation by score band in `evaluate_loan_risk`. -/
def evalRecommendation (score : ℕ) : Recommendation :=
  if score ≥ 80 then .approve
  else if score ≥ 60 then .approve_with_conditions
  else if score ≥ 40 then .manual_review
  else .reject

/-- Confidence by score band in `evaluate_loan_risk`
(`0.95 / 0.80 / 0.60 / 0.85`). -/
def evalConfidence (score : ℕ) : ℚ :=
  if score ≥ 80 then mkRat 95 100
  else if score ≥ 60 then mkRat 80 100
  else if score ≥ 40 then mkRat 60 100
  else mkRat 85 100

/-- Argument map read by `evaluate_loan_risk`. -/
structure EvalArgs where
  application_id : Option String
  customer_id : Option String
  loan_amount : Option ℚ
  credit_score : Option ℚ
  vehicle_type : Option String
deriving DecidableEq

/-- The `evaluation_summary` payload of `evaluate_loan_risk`. -/
structure RiskEvalOk where
  application_id : String
  customer_id : String
  overall_risk_level : EvalRiskLevel
  risk_score : ℕ
  recommendation : Recommendation
  confidence_level : ℚ
deriving DecidableEq

/-- Result of `evaluate_loan_risk`. -/
inductive EvalResult
  | error (msg : String)
  | ok (e : RiskEvalOk)
deriving DecidableEq

/-- `evaluate_loan_risk` from the argument map down. -/
def evaluate_loan_risk (args : EvalArgs) : EvalResult :=
  let vehicle_type := args.vehicle_type.getD "standard"
  if !(truthyS args.application_id && truthyS args.customer_id &&
       truthyQ args.loan_amount && truthyQ args.credit_score) then
    .error "application_id, customer_id, loan_amount, and credit_score are required"
  else
    let la := args.loan_amount.getD 0
    let cs := args.credit_score.getD 0
    let s := eval_risk_score cs la vehicle_type
    .ok ⟨args.application_id.getD "", args.customer_id.getD "",
         evalLevel s, s, evalRecommendation s, evalConfidence s⟩

/-! ## Decision Generator (`generate_loan_decision`) -/

/-- The four decision categories. -/
inductive Decision
  | approved
  | approved_with_conditions
  | pending_review
  | rejected
deriving DecidableEq, Repr

/-- Credit-score band of the `approval_score` in `generate_loan_decision`. -/
def decCreditPoints (credit_score : ℚ) : ℕ :=
  if credit_score ≥ 750 then 40
  else if credit_score ≥ 700 then 30
  else if credit_score ≥ 650 then 20
  else if credit_score ≥ 600 then 10
  else 0

/-- Loan-to-income band of the `approval_score`; the ratio is computed only
when `annual_income > 0`. -/
def decIncomePoints (loan_amount annual_income : ℚ) : ℕ :=
  if annual_income > 0 then
    let loan_to_income := loan_amount / annual_income
    if loan_to_income ≤ 3 then 25
    else if loan_to_income ≤ 4 then 15
    else 0
  else 0

/-- Loan-amount band of the `approval_score`. -/
def decAmountPoints (loan_amount : ℚ) : ℕ :=
  if loan_amount ≤ 30000 then 20
  else if loan_amount ≤ 60000 then 15
  else if loan_amount ≤ 100000 then 5
  else 0

/-- `vehicle_bonuses.get(vehicle_type.lower(), 5)` in
`generate_loan_decision`. -/
def vehicle_bonus (vehicle_type : String) : ℕ :=
  let k := pyLower vehicle_type
  if k = "new_car" then 10
  else if k = "electric_vehicle" then 12
  else if k = "used_car" then 8
  else if k = "luxury_vehicle" then 5
  else if k = "commercial_vehicle" then 3
  else if k = "classic_vehicle" then 2
  else 5

/-- `approval_score` accumulated by `generate_loan_decision`. -/
def approval_score (credit_score loan_amount annual_income : ℚ)
    (vehicle_type : String) : ℕ :=
  decCreditPoints credit_score + decIncomePoints loan_amount annual_income +
    decAmountPoints loan_amount + vehicle_bonus vehicle_type

/-- Decision thresholds in `generate_loan_decision`. -/
def decisionOf (score : ℕ) : Decision :=
  if score ≥ 80 then .approved
  else if score ≥ 60 then .approved_with_conditions
  else if score ≥ 40 then .pending_review
  else .rejected

/-- The "simplified interest rate calculation" of `generate_loan_decision`
(`0.035 / 0.045 / 0.065 / 0.085`, same tiers as `calculate_loan_terms`). -/
def decision_base_rate (credit_score : ℚ) : ℚ :=
  if credit_score ≥ 750 then mkRat 35 1000
  else if credit_score ≥ 700 then mkRat 45 1000
  else if credit_score ≥ 650 then mkRat 65 1000
  else mkRat 85 1000

/-- `rate_adjustments.get(vehicle_type.lower(), 0.0)` in
`generate_loan_decision` — note this table has no `new_car` / `used_car`
entries, unlike the one in `calculate_loan_terms`. -/
def decision_rate_adjustment (vehicle_type : String) : ℚ :=
  let k := pyLower vehicle_type
  if k = "electric_vehicle" then mkRat (-25) 10000
  else if k = "luxury_vehicle" then mkRat 5 1000
  else if k = "commercial_vehicle" then mkRat 10 1000
  else if k = "classic_vehicle" then mkRat 15 1000
  else 0

/-- The `loan_terms` object attached to approved decisions. -/
structure DecisionTerms where
  interest_rate_percent : ℚ
  loan_term_months : ℕ
  monthly_payment : ℚ
  total_payment : ℚ
deriving DecidableEq

/-- Term computation of `generate_loan_decision`: only for the two approved
outcomes, fixed 60-month term and no zero-rate guard (the rate is always
positive here). -/
def decision_loan_terms (credit_score loan_amount : ℚ) (vehicle_type : String)
    (d : Decision) : Option DecisionTerms :=
  if d = .approved ∨ d = .approved_with_conditions then
    let final_rate := decision_base_rate credit_score +
      decision_rate_adjustment vehicle_type
    let loan_term : ℕ := 60
    let monthly_rate := final_rate / 12
    let monthly_payment :=
      loan_amount * (monthly_rate * (1 + monthly_rate) ^ loan_term) /
        ((1 + monthly_rate) ^ loan_term - 1)
    some ⟨roundTo 3 (final_rate * 100), loan_term, roundTo 2 monthly_payment,
          roundTo 2 (monthly_payment * loan_term)⟩
  else none

/-- Argument map read by `generate_loan_decision`. -/
structure DecisionArgs where
  application_id : Option String
  customer_id : Option String
  loan_amount : Option ℚ
  credit_score : Option ℚ
  vehicle_type : Option String
  annual_income : Option ℚ
deriving DecidableEq

/-- The decision payload of `generate_loan_decision`. -/
structure DecisionOk where
  application_id : String
  customer_id : String
  decision : Decision
  approval_score : ℕ
  loan_terms : Option DecisionTerms
deriving DecidableEq

/-- Result of `generate_loan_decision`. -/
inductive DecisionResult
  | error (msg : String)
  | ok (d : DecisionOk)
deriving DecidableEq

/-- `generate_loan_decision` from the argument map down. -/
def generate_loan_decision (args : DecisionArgs) : DecisionResult :=
  let vehicle_type := args.vehicle_type.getD "standard"
  let annual_income := args.annual_income.getD 0
  if !(truthyS args.application_id && truthyS args.customer_id &&
       truthyQ args.loan_amount && truthyQ args.credit_score) then
    .error "Missing required fields for loan decision"
  else
    let la := args.loan_amount.getD 0
    let cs := args.credit_score.getD 0
    let s := approval_score cs la annual_income vehicle_type
    let d := decisionOf s
    .ok ⟨args.application_id.getD "", args.customer_id.getD "", d, s,
         decision_loan_terms cs la vehicle_type d⟩

/-! ## Input Validator (`validate_loan_application`) -/

/-- The hard validation errors of `validate_loan_application`. -/
inductive VError
  | missingRequiredFields (fields : List String)
  | loanAmountNotPositive
  | creditScoreOutOfRange
  | incomeNotPositive
  | employmentNegative
deriving DecidableEq

/-- The validation warnings of `validate_loan_application`; the
debt-to-income warning carries the computed ratio. -/
inductive VWarning
  | loanAmountExceedsLimits
  | creditScoreBelowThreshold
  | lowIncome
  | shortEmployment
  | highDebtToIncome (dti : ℚ)
deriving DecidableEq

/-- Argument map read by `validate_loan_application` (the seven required
properties, in the order of the source's `required_fields` list). -/
structure ValidateArgs where
  application_id : Option String
  customer_id : Option String
  loan_amount : Option ℚ
  vehicle_type : Option String
  credit_score : Option ℚ
  annual_income : Option ℚ
  employment_years : Option ℚ
deriving DecidableEq

/-- The validation payload of `validate_loan_application`. -/
structure ValidationResult where
  is_valid : Bool
  errors : List VError
  warnings : List VWarning
  required_fields_complete : Bool
  business_rules_passed : Bool
  ready_for_processing : Bool
deriving DecidableEq

/-- The `missing_fields` list of `validate_loan_application`
(`if not args.get(field)` over the seven required properties). -/
def missing_fields (args : ValidateArgs) : List String :=
  (if truthyS args.application_id then [] else ["application_id"]) ++
  (if truthyS args.customer_id then [] else ["customer_id"]) ++
  (if truthyQ args.loan_amount then [] else ["loan_amount"]) ++
  (if truthyS args.vehicle_type then [] else ["vehicle_type"]) ++
  (if truthyQ args.credit_score then [] else ["credit_score"]) ++
  (if truthyQ args.annual_income then [] else ["annual_income"]) ++
  (if truthyQ args.employment_years then [] else ["employment_years"])

/-- `validate_loan_application` from the argument map down. The source flips
a `validation_result["is_valid"]` flag to `False` in each hard-error branch
and appends to the error / warning lists in order; the flag is therefore the
conjunction of the negations of the five hard-error conditions, which is how
`is_valid` is written here. -/
def validate_loan_application (args : ValidateArgs) : ValidationResult :=
  let missing := missing_fields args
  let la := args.loan_amount.getD 0
  let cs := args.credit_score.getD 0
  let inc := args.annual_income.getD 0
  let emp := args.employment_years.getD 0
  let errs0 : List VError :=
    if missing.isEmpty then [] else [.missingRequiredFields missing]
  let errsLoan : List VError := if la ≤ 0 then [.loanAmountNotPositive] else []
  let warnsLoan : List VWarning :=
    if la ≤ 0 then [] else if la > 100000 then [.loanAmountExceedsLimits] else []
  let errsCredit : List VError :=
    if cs < 300 ∨ cs > 850 then [.creditScoreOutOfRange] else []
  let warnsCredit : List VWarning :=
    if cs < 300 ∨ cs > 850 then []
    else if cs < 600 then [.creditScoreBelowThreshold] else []
  let errsIncome : List VError := if inc ≤ 0 then [.incomeNotPositive] else []
  let warnsIncome : List VWarning :=
    if inc ≤ 0 then [] else if inc < 30000 then [.lowIncome] else []
  let errsEmp : List VError := if emp < 0 then [.employmentNegative] else []
  let warnsEmp : List VWarning :=
    if emp < 0 then [] else if emp < 2 then [.shortEmployment] else []
  let warnsDti : List VWarning :=
    if la > 0 then
      if inc > 0 then
        let estimated_monthly_payment := la * mkRat 2 100
        let dti := estimated_monthly_payment * 12 / inc
        if dti > mkRat 4 10 then [.highDebtToIncome dti] else []
      else []
    else []
  let errors := errs0 ++ errsLoan ++ errsCredit ++ errsIncome ++ errsEmp
  let warnings := warnsLoan ++ warnsCredit ++ warnsIncome ++ warnsEmp ++ warnsDti
  let is_valid := missing.isEmpty && !(la ≤ 0) && !(cs < 300 ∨ cs > 850) &&
    !(inc ≤ 0) && !(emp < 0)
  ⟨is_valid, errors, warnings, missing.isEmpty, errors.isEmpty,
   is_valid && errors.isEmpty⟩

/-- Is a warning the high debt-to-income warning? -/
def VWarning.isHighDti : VWarning → Bool
  | .highDebtToIncome _ => true
  | _ => false

/-- Does a validation result carry the high debt-to-income warning? -/
def hasHighDtiWarning (r : ValidationResult) : Bool :=
  r.warnings.any VWarning.isHighDti

/-! ## Projection helpers used by the claim statements -/

/-- The decision category of a `generate_loan_decision` result. -/
def decisionKind : DecisionResult → Option Decision
  | .error _ => none
  | .ok d => some d.decision

/-- The interest rate (in percent, 3 dp) embedded in an approved decision's
`loan_terms`, when present. -/
def decisionRatePercent : DecisionResult → Option ℚ
  | .error _ => none
  | .ok d =>
    match d.loan_terms with
    | none => none
    | some t => some t.interest_rate_percent

/-- The loan term (months) embedded in an approved decision's `loan_terms`,
when present. -/
def decisionTermMonths : DecisionResult → Option ℕ
  | .error _ => none
  | .ok d =>
    match d.loan_terms with
    | none => none
    | some t => some t.loan_term_months

/-- Whether a `generate_loan_decision` result carries a `loan_terms` object. -/
def decisionHasTerms : DecisionResult → Option Bool
  | .error _ => none
  | .ok d => some d.loan_terms.isSome

/-- The interest rate (in percent, 3 dp) of a `calculate_loan_terms` result. -/
def calcRatePercent : TermsResult → Option ℚ
  | .error _ => none
  | .ok t => some t.interest_rate

/-- The known vehicle-type keys of the reference tables. -/
def knownVehicleTypes : List String :=
  ["new_car", "used_car", "luxury_vehicle", "commercial_vehicle",
   "electric_vehicle", "classic_vehicle"]

/-- The `risk_score` of a `get_risk_profile` result. -/
def riskScoreOf : RiskResult → Option ℕ
  | .error _ => none
  | .ok p => some p.risk_score

/-- The `overall_risk_level` of a `get_risk_profile` result. -/
def riskLevelOf : RiskResult → Option RiskLevel
  | .error _ => none
  | .ok p => some p.overall_risk_level

/-- The `probability_of_default` of a `get_risk_profile` result. -/
def riskPdOf : RiskResult → Option ℚ
  | .error _ => none
  | .ok p => some p.probability_of_default

/-- The `recommended_interest_rate` of a `get_risk_profile` result. -/
def riskRateOf : RiskResult → Option ℚ
  | .error _ => none
  | .ok p => some p.recommended_interest_rate

/-- The `risk_score` of an `evaluate_loan_risk` result. -/
def evalScoreOf : EvalResult → Option ℕ
  | .error _ => none
  | .ok e => some e.risk_score

/-- The `overall_risk_level` of an `evaluate_loan_risk` result. -/
def evalLevelOf : EvalResult → Option EvalRiskLevel
  | .error _ => none
  | .ok e => some e.overall_risk_level

/-- The `recommendation` of an `evaluate_loan_risk` result. -/
def evalRecOf : EvalResult → Option Recommendation
  | .error _ => none
  | .ok e => some e.recommendation

/-- The `confidence_level` of an `evaluate_loan_risk` result. -/
def evalConfOf : EvalResult → Option ℚ
  | .error _ => none
  | .ok e => some e.confidence_level

/-- The `loan_term_months` of a `calculate_loan_terms` result. -/
def calcTermMonths : TermsResult → Option ℕ
  | .error _ => none
  | .ok t => some t.loan_term_months

/-- The (2 dp rounded) `monthly_payment` of a `calculate_loan_terms` result. -/
def calcMonthlyPayment : TermsResult → Option ℚ
  | .error _ => none
  | .ok t => some t.monthly_payment

end FunctionApp

namespace FunctionApp

/-- Claim C3: For every input with `customer_id`, `loan_amount` and
`credit_score` all present, `get_risk_profile` computes `riskScore` as the
sum of a credit-score tier (`≥750→20, ≥700→15, ≥650→10, else→5`) and a
loan-amount tier (`≤30000→15, ≤60000→10, else→5`), maps the sum to the
overall risk level (`≥30→low, ≥20→medium, else→high`) and to
`probability_of_default` `{0.02, 0.08, 0.15}` and
`recommended_interest_rate` `{0.035, 0.055, 0.085}` respectively. -/
theorem claim_C3 (cid : String) (la cs : ℚ)
    (hcid : cid ≠ "") (hla : la ≠ 0) (hcs : cs ≠ 0) :
    riskScoreOf (get_risk_profile ⟨some cid, some la, some cs⟩) =
      some ((if cs ≥ 750 then 20 else if cs ≥ 700 then 15
             else if cs ≥ 650 then 10 else 5) +
            (if la ≤ 30000 then 15 else if la ≤ 60000 then 10 else 5)) ∧
    riskLevelOf (get_risk_profile ⟨some cid, some la, some cs⟩) =
      some (if risk_score cs la ≥ 30 then RiskLevel.low
            else if risk_score cs la ≥ 20 then RiskLevel.medium
            else RiskLevel.high) ∧
    riskPdOf (get_risk_profile ⟨some cid, some la, some cs⟩) =
      some (if risk_score cs la ≥ 30 then mkRat 2 100
            else if risk_score cs la ≥ 20 then mkRat 8 100
            else mkRat 15 100) ∧
    riskRateOf (get_risk_profile ⟨some cid, some la, some cs⟩) =
      some (if risk_score cs la ≥ 30 then mkRat 35 1000
            else if risk_score cs la ≥ 20 then mkRat 55 1000
            else mkRat 85 1000) := by
  have hb : (truthyS (some cid) && truthyQ (some la) && truthyQ (some cs)) = true := by
    simp [truthyS, truthyQ, hcid, hla, hcs]
  refine ⟨?_, ?_, ?_, ?_⟩ <;>
    simp only [get_risk_profile, hb, Bool.not_true, Bool.false_eq_true, if_false,
      riskScoreOf, riskLevelOf, riskPdOf, riskRateOf, Option.getD_some,
      risk_score, riskCreditPoints, riskAmountPoints, overall_risk,
      probability_of_default, recommended_rate] <;>
    split_ifs <;> rfl

/-- Scenario B of the spec, used by the C3 witness:
`{customerId: "c1", loanAmount: 90000, creditScore: 610}` yields
`riskScore = 10` and `overallRiskLevel = "high"`. -/
theorem claim_C3_witness :
    riskScoreOf (get_risk_profile ⟨some "c1", some 90000, some 610⟩) = some 10 ∧
    riskLevelOf (get_risk_profile ⟨some "c1", some 90000, some 610⟩) =
      some RiskLevel.high :=
  ⟨((claim_C3 "c1" 90000 610 (by decide) (by decide) (by decide)).1).trans (by decide),
   ((claim_C3 "c1" 90000 610 (by decide) (by decide) (by decide)).2.1).trans (by decide)⟩

end FunctionApp

namespace FunctionApp

/-- Claim C4: For every input with `application_id`, `customer_id`,
`loan_amount` and `credit_score` present, `evaluate_loan_risk` computes an
overall score that is the sum of a credit-score factor
(`≥750→40, ≥700→30, ≥650→20, else→10`), a loan-amount factor
(`≤25000→35, ≤50000→25, ≤75000→15, else→5`) and a vehicle-type factor
(fixed table, default 18, never above 25), the sum is at most 100, and the
score maps to recommendation and confidence by the bands
`≥80→low/approve/0.95`, `≥60→medium/approve_with_conditions/0.80`,
`≥40→medium_high/manual_review/0.60`, `else→high/reject/0.85`. -/
theorem claim_C4 (aid cid v : String) (la cs : ℚ)
    (haid : aid ≠ "") (hcid : cid ≠ "") (hla : la ≠ 0) (hcs : cs ≠ 0) :
    evalScoreOf (evaluate_loan_risk ⟨some aid, some cid, some la, some cs, some v⟩) =
      some ((if cs ≥ 750 then 40 else if cs ≥ 700 then 30
             else if cs ≥ 650 then 20 else 10) +
            (if la ≤ 25000 then 35 else if la ≤ 50000 then 25
             else if la ≤ 75000 then 15 else 5) +
            vehicle_risk_weight v) ∧
    vehicle_risk_weight v ≤ 25 ∧
    eval_risk_score cs la v ≤ 100 ∧
    (eval_risk_score cs la v ≥ 80 →
      evalLevelOf (evaluate_loan_risk ⟨some aid, some cid, some la, some cs, some v⟩) = some EvalRiskLevel.low ∧
      evalRecOf (evaluate_loan_risk ⟨some aid, some cid, some la, some cs, some v⟩) = some Recommendation.approve ∧
      evalConfOf (evaluate_loan_risk ⟨some aid, some cid, some la, some cs, some v⟩) = some (mkRat 95 100)) ∧
    (eval_risk_score cs la v ≥ 60 → eval_risk_score cs la v < 80 →
      evalLevelOf (evaluate_loan_risk ⟨some aid, some cid, some la, some cs, some v⟩) = some EvalRiskLevel.medium ∧
      evalRecOf (evaluate_loan_risk ⟨some aid, some cid, some la, some cs, some v⟩) = some Recommendation.approve_with_conditions ∧
      evalConfOf (evaluate_loan_risk ⟨some aid, some cid, some la, some cs, some v⟩) = some (mkRat 80 100)) ∧
    (eval_risk_score cs la v ≥ 40 → eval_risk_score cs la v < 60 →
      evalLevelOf (evaluate_loan_risk ⟨some aid, some cid, some la, some cs, some v⟩) = some EvalRiskLevel.medium_high ∧
      evalRecOf (evaluate_loan_risk ⟨some aid, some cid, some la, some cs, some v⟩) = some Recommendation.manual_review ∧
      evalConfOf (evaluate_loan_risk ⟨some aid, some cid, some la, some cs, some v⟩) = some (mkRat 60 100)) ∧
    (eval_risk_score cs la v < 40 →
      evalLevelOf (evaluate_loan_risk ⟨some aid, some cid, some la, some cs, some v⟩) = some EvalRiskLevel.high ∧
      evalRecOf (evaluate_loan_risk ⟨some aid, some cid, some la, some cs, some v⟩) = some Recommendation.reject ∧
      evalConfOf (evaluate_loan_risk ⟨some aid, some cid, some la, some cs, some v⟩) = some (mkRat 85 100)) := by
  have hb : (truthyS (some aid) && truthyS (some cid) && truthyQ (some la) &&
      truthyQ (some cs)) = true := by
    simp [truthyS, truthyQ, haid, hcid, hla, hcs]
  have hres : evaluate_loan_risk ⟨some aid, some cid, some la, some cs, some v⟩ =
      .ok ⟨aid, cid, evalLevel (eval_risk_score cs la v), eval_risk_score cs la v,
           evalRecommendation (eval_risk_score cs la v),
           evalConfidence (eval_risk_score cs la v)⟩ := by
    simp only [evaluate_loan_risk, hb, Bool.not_true, Bool.false_eq_true, if_false,
      Option.getD_some]
  have hveh : vehicle_risk_weight v ≤ 25 := by
    unfold vehicle_risk_weight
    dsimp only
    split_ifs <;> omega
  have hcf : evalCreditFactor cs ≤ 40 := by
    unfold evalCreditFactor
    split_ifs <;> omega
  have haf : evalAmountFactor la ≤ 35 := by
    unfold evalAmountFactor
    split_ifs <;> omega
  refine ⟨?_, hveh, ?_, ?_, ?_, ?_, ?_⟩
  · rw [hres]
    simp only [evalScoreOf, eval_risk_score, evalCreditFactor, evalAmountFactor]
  · unfold eval_risk_score
    omega
  · intro h
    rw [hres]
    refine ⟨?_, ?_, ?_⟩ <;>
      simp only [evalLevelOf, evalRecOf, evalConfOf, evalLevel, evalRecommendation,
        evalConfidence] <;>
      split_ifs <;> first | rfl | omega
  · intro h1 h2
    rw [hres]
    refine ⟨?_, ?_, ?_⟩ <;>
      simp only [evalLevelOf, evalRecOf, evalConfOf, evalLevel, evalRecommendation,
        evalConfidence] <;>
      split_ifs <;> first | rfl | omega
  · intro h1 h2
    rw [hres]
    refine ⟨?_, ?_, ?_⟩ <;>
      simp only [evalLevelOf, evalRecOf, evalConfOf, evalLevel, evalRecommendation,
        evalConfidence] <;>
      split_ifs <;> first | rfl | omega
  · intro h
    rw [hres]
    refine ⟨?_, ?_, ?_⟩ <;>
      simp only [evalLevelOf, evalRecOf, evalConfOf, evalLevel, evalRecommendation,
        evalConfidence] <;>
      split_ifs <;> first | rfl | omega

/-- Witness for C4 at `{applicationId: "a1", customerId: "c1",
loanAmount: 20000, creditScore: 780, vehicleType: "new_car"}`:
score `40 + 35 + 25 = 100`, recommendation `approve`, confidence `0.95`. -/
theorem claim_C4_witness :
    evalScoreOf (evaluate_loan_risk
      ⟨some "a1", some "c1", some 20000, some 780, some "new_car"⟩) = some 100 ∧
    evalRecOf (evaluate_loan_risk
      ⟨some "a1", some "c1", some 20000, some 780, some "new_car"⟩) =
      some Recommendation.approve ∧
    evalConfOf (evaluate_loan_risk
      ⟨some "a1", some "c1", some 20000, some 780, some "new_car"⟩) =
      some (mkRat 95 100) :=
  have h := claim_C4 "a1" "c1" "new_car" 20000 780
    (by decide) (by decide) (by decide) (by decide)
  ⟨h.1.trans (by decide), (h.2.2.2.1 (by decide)).2.1, (h.2.2.2.1 (by decide)).2.2⟩

end FunctionApp

namespace FunctionApp

/-- Claim C5: For every argument map, `validate_loan_application` returns
`is_valid = false` iff at least one hard error occurred (missing required
field, `loan_amount ≤ 0`, `credit_score` outside 300–850,
`annual_income ≤ 0`, or `employment_years < 0`), and
`ready_for_processing = (is_valid AND errors is empty)`; in particular for
`{loanAmount: -5, creditScore: 900, annualIncome: 0, employmentYears: -1}`
all four hard range errors are present, `is_valid = false` and
`ready_for_processing = false`. -/
theorem claim_C5 :
    (∀ args : ValidateArgs,
      ((validate_loan_application args).is_valid = false ↔
        (missing_fields args ≠ [] ∨ args.loan_amount.getD 0 ≤ 0 ∨
         args.credit_score.getD 0 < 300 ∨ args.credit_score.getD 0 > 850 ∨
         args.annual_income.getD 0 ≤ 0 ∨ args.employment_years.getD 0 < 0)) ∧
      (validate_loan_application args).ready_for_processing =
        ((validate_loan_application args).is_valid &&
         (validate_loan_application args).errors.isEmpty)) ∧
    ((validate_loan_application ⟨none, none, some (-5), none, some 900, some 0, some (-1)⟩).is_valid = false ∧
     (validate_loan_application ⟨none, none, some (-5), none, some 900, some 0, some (-1)⟩).ready_for_processing = false ∧
     VError.loanAmountNotPositive ∈ (validate_loan_application ⟨none, none, some (-5), none, some 900, some 0, some (-1)⟩).errors ∧
     VError.creditScoreOutOfRange ∈ (validate_loan_application ⟨none, none, some (-5), none, some 900, some 0, some (-1)⟩).errors ∧
     VError.incomeNotPositive ∈ (validate_loan_application ⟨none, none, some (-5), none, some 900, some 0, some (-1)⟩).errors ∧
     VError.employmentNegative ∈ (validate_loan_application ⟨none, none, some (-5), none, some 900, some 0, some (-1)⟩).errors) := by
  refine ⟨fun args => ⟨?_, rfl⟩, by decide, by decide, by decide, by decide,
    by decide, by decide⟩
  simp [validate_loan_application, List.isEmpty_iff, or_assoc]
  simp only [← not_lt]
  tauto

/-- Claim C10: Required-field presence in `get_risk_profile`,
`evaluate_loan_risk` and `generate_loan_decision` is checked by truthiness,
so a numeric required field explicitly supplied as `0` is treated the same
as an absent field: the component returns the missing-required-fields error
object instead of computing a score. -/
theorem claim_C10 :
    (∀ a : RiskArgs, (a.loan_amount = some 0 ∨ a.credit_score = some 0) →
      get_risk_profile a =
        .error "customer_id, loan_amount, and credit_score are required") ∧
    (∀ (c : Option String) (s : Option ℚ),
      get_risk_profile ⟨c, some 0, s⟩ = get_risk_profile ⟨c, none, s⟩ ∧
      get_risk_profile ⟨c, s, some 0⟩ = get_risk_profile ⟨c, s, none⟩) ∧
    (∀ a : EvalArgs, (a.loan_amount = some 0 ∨ a.credit_score = some 0) →
      evaluate_loan_risk a =
        .error "application_id, customer_id, loan_amount, and credit_score are required") ∧
    (∀ a : DecisionArgs, (a.loan_amount = some 0 ∨ a.credit_score = some 0) →
      generate_loan_decision a = .error "Missing required fields for loan decision") := by
  refine ⟨fun a h => ?_, fun c s => ⟨?_, ?_⟩, fun a h => ?_, fun a h => ?_⟩
  · obtain ⟨c, l, k⟩ := a
    rcases h with h | h <;> subst h <;> simp [get_risk_profile, truthyQ]
  · simp [get_risk_profile, truthyQ, truthyS]
  · simp [get_risk_profile, truthyQ, truthyS]
  · obtain ⟨i, c, l, k, v⟩ := a
    rcases h with h | h <;> subst h <;> simp [evaluate_loan_risk, truthyQ]
  · obtain ⟨i, c, l, k, v, n⟩ := a
    rcases h with h | h <;> subst h <;> simp [generate_loan_decision, truthyQ]

/-- Witness for C10: `get_risk_profile` with `loan_amount = 0` supplied
explicitly returns the missing-required-fields error object. -/
theorem claim_C10_witness :
    get_risk_profile ⟨some "c1", some 0, some 700⟩ =
      .error "customer_id, loan_amount, and credit_score are required" :=
  claim_C10.1 ⟨some "c1", some 0, some 700⟩ (Or.inl rfl)

end FunctionApp

namespace FunctionApp

/-- Claim C6: For every vehicle-type string not in the known set (after
case-insensitive lookup), no component errors: `calculate_loan_terms`
applies a `0` rate adjustment and a 60-month default term,
`evaluate_loan_risk` uses an 18-point vehicle factor, and
`generate_loan_decision` uses a 5-point vehicle bonus; recognized types
match regardless of letter case (every lookup depends only on the
lowercased string). -/
theorem claim_C6 (v w : String) :
    (pyLower v ∉ knownVehicleTypes →
      rate_adjustment v = 0 ∧ default_term v = 60 ∧
      vehicle_risk_weight v = 18 ∧ vehicle_bonus v = 5) ∧
    (pyLower v = pyLower w →
      rate_adjustment v = rate_adjustment w ∧ default_term v = default_term w ∧
      vehicle_risk_weight v = vehicle_risk_weight w ∧
      vehicle_bonus v = vehicle_bonus w) := by
  constructor
  · intro h
    simp only [knownVehicleTypes, List.mem_cons, List.not_mem_nil, or_false,
      not_or] at h
    obtain ⟨h1, h2, h3, h4, h5, h6⟩ := h
    refine ⟨?_, ?_, ?_, ?_⟩ <;>
      simp [rate_adjustment, default_term, vehicle_risk_weight, vehicle_bonus,
        h1, h2, h3, h4, h5, h6]
  · intro h
    refine ⟨?_, ?_, ?_, ?_⟩ <;>
      simp only [rate_adjustment, default_term, vehicle_risk_weight,
        vehicle_bonus, h]

/-- Witness for C6: the unknown type `"Boat"` resolves to all four defaults,
and `"NEW_CAR"` is looked up exactly like `"new_car"`. -/
theorem claim_C6_witness :
    rate_adjustment "Boat" = 0 ∧ default_term "Boat" = 60 ∧
    vehicle_risk_weight "Boat" = 18 ∧ vehicle_bonus "Boat" = 5 ∧
    rate_adjustment "NEW_CAR" = rate_adjustment "new_car" ∧
    default_term "NEW_CAR" = default_term "new_car" :=
  ⟨((claim_C6 "Boat" "Boat").1 (by decide)).1,
   ((claim_C6 "Boat" "Boat").1 (by decide)).2.1,
   ((claim_C6 "Boat" "Boat").1 (by decide)).2.2.1,
   ((claim_C6 "Boat" "Boat").1 (by decide)).2.2.2,
   ((claim_C6 "NEW_CAR" "new_car").2 (by decide)).1,
   ((claim_C6 "NEW_CAR" "new_car").2 (by decide)).2.1⟩

/-- Claim C7: For every input with the required fields present, the
`loan_terms` field of `generate_loan_decision`'s result is non-null iff the
decision is `approved` or `approved_with_conditions`. -/
theorem claim_C7 (aid cid v : String) (la cs inc : ℚ)
    (haid : aid ≠ "") (hcid : cid ≠ "") (hla : la ≠ 0) (hcs : cs ≠ 0) :
    ∀ d, generate_loan_decision
        ⟨some aid, some cid, some la, some cs, some v, some inc⟩ = .ok d →
      (d.loan_terms ≠ none ↔
        (d.decision = Decision.approved ∨
         d.decision = Decision.approved_with_conditions)) := by
  have hb : (truthyS (some aid) && truthyS (some cid) && truthyQ (some la) &&
      truthyQ (some cs)) = true := by
    simp [truthyS, truthyQ, haid, hcid, hla, hcs]
  intro d hd
  simp only [generate_loan_decision, hb, Bool.not_true, Bool.false_eq_true,
    if_false, Option.getD_some] at hd
  injection hd with h
  subst h
  simp only [decision_loan_terms]
  split_ifs with hD <;> simp [hD]

/-- Witness for C7 at a rejected application (`approval_score = 5`):
`loan_terms` is null and the decision is neither approved outcome. -/
theorem claim_C7_witness :
    generate_loan_decision
      ⟨some "a1", some "c1", some 200000, some 500, some "standard", some 0⟩ =
      .ok ⟨"a1", "c1", Decision.rejected, 5, none⟩ ∧
    ((⟨"a1", "c1", Decision.rejected, 5, none⟩ : DecisionOk).loan_terms ≠ none ↔
      ((⟨"a1", "c1", Decision.rejected, 5, none⟩ : DecisionOk).decision =
          Decision.approved ∨
       (⟨"a1", "c1", Decision.rejected, 5, none⟩ : DecisionOk).decision =
          Decision.approved_with_conditions)) :=
  ⟨by decide,
   claim_C7 "a1" "c1" "standard" 200000 500 0 (by decide) (by decide)
     (by decide) (by decide) ⟨"a1", "c1", Decision.rejected, 5, none⟩ (by decide)⟩

/-- The credit tier of `get_risk_profile` is monotone in the credit score. -/
lemma riskCreditPoints_mono {a b : ℚ} (h : a ≤ b) :
    riskCreditPoints a ≤ riskCreditPoints b := by
  unfold riskCreditPoints
  split_ifs <;> first | omega | linarith

/-- The amount tier of `get_risk_profile` is antitone in the loan amount. -/
lemma riskAmountPoints_anti {a b : ℚ} (h : a ≤ b) :
    riskAmountPoints b ≤ riskAmountPoints a := by
  unfold riskAmountPoints
  split_ifs <;> first | omega | linarith

/-- The credit band of `generate_loan_decision` is monotone in the credit
score. -/
lemma decCreditPoints_mono {a b : ℚ} (h : a ≤ b) :
    decCreditPoints a ≤ decCreditPoints b := by
  unfold decCreditPoints
  split_ifs <;> first | omega | linarith

/-- The amount band of `generate_loan_decision` is antitone in the loan
amount. -/
lemma decAmountPoints_anti {a b : ℚ} (h : a ≤ b) :
    decAmountPoints b ≤ decAmountPoints a := by
  unfold decAmountPoints
  split_ifs <;> first | omega | linarith

/-- The loan-to-income band of `generate_loan_decision` is antitone in the
loan amount. -/
lemma decIncomePoints_anti (c : ℚ) {a b : ℚ} (h : a ≤ b) :
    decIncomePoints b c ≤ decIncomePoints a c := by
  unfold decIncomePoints
  dsimp only
  by_cases hc : c > 0
  · simp only [if_pos hc]
    have hdiv : a / c ≤ b / c := by gcongr
    split_ifs <;> first | omega | linarith
  · simp [if_neg hc]

/-- Claim C8: For every pair of inputs that differ only in credit score, the
higher credit score receives a `risk_score` (`get_risk_profile`) and
`approval_score` (`generate_loan_decision`) greater than or equal to the
other's; for every pair differing only in loan amount, the higher loan
amount receives a score less than or equal to the other's. -/
theorem claim_C8 :
    (∀ (la inc cs1 cs2 : ℚ) (v : String), cs1 ≤ cs2 →
      risk_score cs1 la ≤ risk_score cs2 la ∧
      approval_score cs1 la inc v ≤ approval_score cs2 la inc v) ∧
    (∀ (cs inc la1 la2 : ℚ) (v : String), la1 ≤ la2 →
      risk_score cs la2 ≤ risk_score cs la1 ∧
      approval_score cs la2 inc v ≤ approval_score cs la1 inc v) := by
  constructor
  · intro la inc cs1 cs2 v h
    have h1 := riskCreditPoints_mono h
    have h2 := decCreditPoints_mono h
    unfold risk_score approval_score
    omega
  · intro cs inc la1 la2 v h
    have h1 := riskAmountPoints_anti h
    have h2 := decAmountPoints_anti h
    have h3 := decIncomePoints_anti inc h
    unfold risk_score approval_score
    omega

/-- Witness for C8 at credit scores `600 ≤ 800` and loan amounts
`40000 ≤ 90000`. -/
theorem claim_C8_witness :
    (risk_score 600 40000 ≤ risk_score 800 40000 ∧
     approval_score 600 40000 50000 "new_car" ≤
       approval_score 800 40000 50000 "new_car") ∧
    (risk_score 700 90000 ≤ risk_score 700 40000 ∧
     approval_score 700 90000 0 "new_car" ≤ approval_score 700 40000 0 "new_car") :=
  ⟨claim_C8.1 40000 50000 600 800 "new_car" (by decide),
   claim_C8.2 700 0 40000 90000 "new_car" (by decide)⟩

end FunctionApp

namespace FunctionApp

/-- Claim C9, counterexample: The claim "`validate_loan_application` emits the
high debt-to-income warning exactly when
`(loan_amount * 0.02 * 12) / annual_income > 0.4`" fails at
`{loanAmount: -5, annualIncome: -1}`: the ratio is `1.2 > 0.4`, yet no
debt-to-income warning is emitted (the code computes the ratio only when
both loan amount and income are positive). -/
theorem claim_C9_counterexample :
    ((-5 : ℚ) * mkRat 2 100 * 12) / (-1 : ℚ) > mkRat 4 10 ∧
    hasHighDtiWarning (validate_loan_application
      ⟨none, none, some (-5), none, none, some (-1), none⟩) = false := by
  constructor
  · rw [Rat.mkRat_eq_div, Rat.mkRat_eq_div]
    norm_num
  · decide

/-- Claim C9, amended: For every argument map, `validate_loan_application`
estimates the monthly payment as `loan_amount * 0.02` and emits the high
debt-to-income warning, carrying the computed ratio, exactly when
`loan_amount > 0`, `annual_income > 0` and
`(estimated monthly payment * 12) / annual_income > 0.4`, where a missing
`loan_amount` or `annual_income` is treated as 0 for this derived check
(and therefore fails the positivity guard). -/
theorem claim_C9_amended (args : ValidateArgs) :
    (hasHighDtiWarning (validate_loan_application args) = true ↔
      (args.loan_amount.getD 0 > 0 ∧ args.annual_income.getD 0 > 0 ∧
       args.loan_amount.getD 0 * mkRat 2 100 * 12 / args.annual_income.getD 0 >
         mkRat 4 10)) ∧
    (args.loan_amount.getD 0 > 0 → args.annual_income.getD 0 > 0 →
      args.loan_amount.getD 0 * mkRat 2 100 * 12 / args.annual_income.getD 0 >
        mkRat 4 10 →
      VWarning.highDebtToIncome
          (args.loan_amount.getD 0 * mkRat 2 100 * 12 / args.annual_income.getD 0) ∈
        (validate_loan_application args).warnings) := by
  have e1 : (if args.loan_amount.getD 0 ≤ 0 then ([] : List VWarning)
      else if args.loan_amount.getD 0 > 100000 then [VWarning.loanAmountExceedsLimits]
      else []).any VWarning.isHighDti = false := by
    split_ifs <;> rfl
  have e2 : (if args.credit_score.getD 0 < 300 ∨ args.credit_score.getD 0 > 850
      then ([] : List VWarning)
      else if args.credit_score.getD 0 < 600 then [VWarning.creditScoreBelowThreshold]
      else []).any VWarning.isHighDti = false := by
    split_ifs <;> rfl
  have e3 : (if args.annual_income.getD 0 ≤ 0 then ([] : List VWarning)
      else if args.annual_income.getD 0 < 30000 then [VWarning.lowIncome]
      else []).any VWarning.isHighDti = false := by
    split_ifs <;> rfl
  have e4 : (if args.employment_years.getD 0 < 0 then ([] : List VWarning)
      else if args.employment_years.getD 0 < 2 then [VWarning.shortEmployment]
      else []).any VWarning.isHighDti = false := by
    split_ifs <;> rfl
  constructor
  · simp only [hasHighDtiWarning, validate_loan_application, List.any_append,
      e1, e2, e3, e4, Bool.false_or, Bool.or_false, Bool.or_eq_true]
    split_ifs with h1 h2 h3 <;> simp_all [VWarning.isHighDti]
  · intro h1 h2 h3
    simp only [validate_loan_application, List.mem_append]
    right
    simp [if_pos h1, if_pos h2, if_pos h3]

/-- The debt-to-income ratio of the C9 witness input exceeds `0.4`. -/
lemma dtiWitnessRatioGt :
    (100000 : ℚ) * mkRat 2 100 * 12 / (50000 : ℚ) > mkRat 4 10 := by
  rw [Rat.mkRat_eq_div, Rat.mkRat_eq_div]
  norm_num

/-- Witness for the amended C9 at `{loanAmount: 100000, annualIncome: 50000}`
(ratio `0.48 > 0.4`): the warning, carrying the ratio, is emitted. -/
theorem claim_C9_witness :
    VWarning.highDebtToIncome
        ((100000 : ℚ) * mkRat 2 100 * 12 / (50000 : ℚ)) ∈
      (validate_loan_application
        ⟨some "a1", some "c1", some 100000, some "new_car", some 700,
         some 50000, some 3⟩).warnings :=
  (claim_C9_amended
    ⟨some "a1", some "c1", some 100000, some "new_car", some 700,
     some 50000, some 3⟩).2 (by decide) (by decide) dtiWitnessRatioGt

end FunctionApp

namespace FunctionApp

/-- The two credit-tier base-rate tables (Term Calculator and Decision
Generator) are identical. -/
lemma decision_base_rate_eq (c : ℚ) : decision_base_rate c = base_rate c := rfl

/-- Outside `used_car`, the Decision Generator's vehicle rate adjustment
agrees with the Term Calculator's (`new_car` is absent from the decision
table but both then yield `0`; `used_car` is the one divergence). -/
lemma decision_adjustment_eq {v : String} (hv : pyLower v ≠ "used_car") :
    decision_rate_adjustment v = rate_adjustment v := by
  unfold decision_rate_adjustment rate_adjustment
  dsimp only
  split_ifs <;> simp_all

/-- Claim C1, counterexample: The claim that an approved decision's
`loan_terms` carry the same final rate as `calculate_loan_terms` fails for
`used_car`: at `{applicationId: "a1", customerId: "c1", loanAmount: 25000,
creditScore: 780, vehicleType: "used_car", annualIncome: 0}` the decision is
`approved_with_conditions` with an embedded rate of `3.5%`, while
`calculate_loan_terms` computes `4.0%` (base `3.5%` plus the `0.5%`
used-car adjustment that the decision generator's table omits). -/
theorem claim_C1_counterexample :
    decisionKind (generate_loan_decision ⟨some "a1", some "c1", some 25000, some 780, some "used_car", some 0⟩) =
      some Decision.approved_with_conditions ∧
    decisionRatePercent (generate_loan_decision ⟨some "a1", some "c1", some 25000, some 780, some "used_car", some 0⟩) = some (mkRat 7 2) ∧
    calcRatePercent (calculate_loan_terms ⟨some 25000, some 780, some "used_car"⟩) =
      some 4 ∧
    (mkRat 7 2 : ℚ) ≠ 4 := by
  have hb : (truthyS (some "a1") && truthyS (some "c1") &&
      truthyQ (some (25000 : ℚ)) && truthyQ (some (780 : ℚ))) = true := by decide
  have hs : approval_score 780 25000 0 "used_car" = 68 := by decide
  have hg : generate_loan_decision ⟨some "a1", some "c1", some 25000, some 780, some "used_car", some 0⟩ =
      .ok ⟨"a1", "c1", Decision.approved_with_conditions, 68,
           decision_loan_terms 780 25000 "used_car"
             Decision.approved_with_conditions⟩ := by
    simp only [generate_loan_decision, hb, Bool.not_true, Bool.false_eq_true,
      if_false, Option.getD_some, hs]
    rfl
  have hb2 : (truthyQ (some (25000 : ℚ)) && truthyQ (some (780 : ℚ))) = true := by
    decide
  have hrate : base_rate 780 + rate_adjustment "used_car" = mkRat 40 1000 := by
    have hp : pyLower "used_car" = "used_car" := by decide
    rw [show base_rate 780 = mkRat 35 1000 from by norm_num [base_rate]]
    rw [show rate_adjustment "used_car" = mkRat 5 1000 from by decide]
    rw [Rat.mkRat_eq_div, Rat.mkRat_eq_div, Rat.mkRat_eq_div]
    norm_num
  have hdrate : decision_base_rate 780 + decision_rate_adjustment "used_car" =
      mkRat 35 1000 := by
    rw [show decision_base_rate 780 = mkRat 35 1000 from by norm_num [decision_base_rate]]
    rw [show decision_rate_adjustment "used_car" = 0 from by decide]
    rw [add_zero]
  refine ⟨?_, ?_, ?_, ?_⟩
  · rw [hg]
    rfl
  · rw [hg]
    simp only [decisionRatePercent, decision_loan_terms, or_true, if_true, hdrate,
      show roundTo 3 (mkRat 35 1000 * 100) = mkRat 7 2 from by
        rw [roundTo, round_eq, Rat.mkRat_eq_div, Rat.mkRat_eq_div]
        norm_num [Int.floor_eq_iff]]
  · simp only [calculate_loan_terms, hb2, Bool.not_true, Bool.false_eq_true,
      if_false, Option.getD_some, calcRatePercent, hrate]
    rw [show roundTo 3 (mkRat 40 1000 * 100) = 4 from by
      rw [roundTo, round_eq, Rat.mkRat_eq_div]
      norm_num [Int.floor_eq_iff]]
  · rw [Rat.mkRat_eq_div]
    norm_num

/-- Claim C1, amended: For every input where `generate_loan_decision` yields
`approved` or `approved_with_conditions` and whose vehicle type does not
lowercase to `"used_car"`, the attached `loan_terms` use the Term
Calculator's rate logic with a fixed 60-month term: the embedded final rate
equals the rate `calculate_loan_terms` computes for the same inputs. (For
`used_car` the decision generator's adjustment table omits the `0.5%`
adjustment — see the counterexample.) -/
theorem claim_C1_amended (aid cid v : String) (la cs inc : ℚ)
    (haid : aid ≠ "") (hcid : cid ≠ "") (hla : la ≠ 0) (hcs : cs ≠ 0)
    (hv : pyLower v ≠ "used_car")
    (happ : decisionKind (generate_loan_decision
        ⟨some aid, some cid, some la, some cs, some v, some inc⟩) =
          some Decision.approved ∨
      decisionKind (generate_loan_decision
        ⟨some aid, some cid, some la, some cs, some v, some inc⟩) =
          some Decision.approved_with_conditions) :
    decisionRatePercent (generate_loan_decision
        ⟨some aid, some cid, some la, some cs, some v, some inc⟩) =
      calcRatePercent (calculate_loan_terms ⟨some la, some cs, some v⟩) ∧
    decisionTermMonths (generate_loan_decision
        ⟨some aid, some cid, some la, some cs, some v, some inc⟩) = some 60 := by
  have hb : (truthyS (some aid) && truthyS (some cid) && truthyQ (some la) &&
      truthyQ (some cs)) = true := by
    simp [truthyS, truthyQ, haid, hcid, hla, hcs]
  have hb2 : (truthyQ (some la) && truthyQ (some cs)) = true := by
    simp [truthyQ, hla, hcs]
  simp only [generate_loan_decision, hb, Bool.not_true, Bool.false_eq_true,
    if_false, Option.getD_some, decisionKind] at happ
  have hD : decisionOf (approval_score cs la inc v) = Decision.approved ∨
      decisionOf (approval_score cs la inc v) = Decision.approved_with_conditions := by
    rcases happ with h | h
    · exact Or.inl (Option.some.inj h)
    · exact Or.inr (Option.some.inj h)
  constructor
  · simp only [generate_loan_decision, hb, Bool.not_true, Bool.false_eq_true,
      if_false, Option.getD_some, decisionRatePercent, decision_loan_terms,
      if_pos hD, calculate_loan_terms, hb2, calcRatePercent]
    rw [decision_base_rate_eq, decision_adjustment_eq hv]
  · simp only [generate_loan_decision, hb, Bool.not_true, Bool.false_eq_true,
      if_false, Option.getD_some, decisionTermMonths, decision_loan_terms,
      if_pos hD]

/-- Witness for the amended C1 at `{applicationId: "a1", customerId: "c1",
loanAmount: 20000, creditScore: 760, vehicleType: "electric_vehicle",
annualIncome: 0}` (approval score `72`, `approved_with_conditions`). -/
theorem claim_C1_witness :
    decisionRatePercent (generate_loan_decision
        ⟨some "a1", some "c1", some 20000, some 760, some "electric_vehicle",
         some 0⟩) =
      calcRatePercent (calculate_loan_terms
        ⟨some 20000, some 760, some "electric_vehicle"⟩) ∧
    decisionTermMonths (generate_loan_decision
        ⟨some "a1", some "c1", some 20000, some 760, some "electric_vehicle",
         some 0⟩) = some 60 :=
  claim_C1_amended "a1" "c1" "electric_vehicle" 20000 760 0 (by decide)
    (by decide) (by decide) (by decide) (by decide) (Or.inr (by decide))

end FunctionApp

namespace FunctionApp

/-- Scenario A (`{loanAmount: 25000, creditScore: 780,
vehicleType: "new_car"}`): the final rate is `3.5%`. -/
lemma scenarioA_rate :
    calcRatePercent (calculate_loan_terms ⟨some 25000, some 780, some "new_car"⟩) = some (mkRat 7 2) := by
  have hb2 : (truthyQ (some (25000 : ℚ)) && truthyQ (some (780 : ℚ))) = true := by
    decide
  have hrate : base_rate 780 + rate_adjustment "new_car" = mkRat 35 1000 := by
    rw [show base_rate 780 = mkRat 35 1000 from by norm_num [base_rate]]
    rw [show rate_adjustment "new_car" = 0 from by decide]
    rw [add_zero]
  simp only [calculate_loan_terms, hb2, Bool.not_true, Bool.false_eq_true,
    if_false, Option.getD_some, calcRatePercent, hrate,
    show roundTo 3 (mkRat 35 1000 * 100) = mkRat 7 2 from by
      rw [roundTo, round_eq, Rat.mkRat_eq_div, Rat.mkRat_eq_div]
      norm_num [Int.floor_eq_iff]]

/-- Scenario A: the loan term is the 72-month `new_car` default. -/
lemma scenarioA_term :
    calcTermMonths (calculate_loan_terms ⟨some 25000, some 780, some "new_car"⟩) = some 72 := by
  have hb2 : (truthyQ (some (25000 : ℚ)) && truthyQ (some (780 : ℚ))) = true := by
    decide
  simp only [calculate_loan_terms, hb2, Bool.not_true, Bool.false_eq_true,
    if_false, Option.getD_some, calcTermMonths,
    show default_term "new_car" = 72 from by decide]

/-- Scenario A: the amortized monthly payment, rounded to 2 decimals, is
`385.46`. -/
lemma scenarioA_payment :
    calcMonthlyPayment (calculate_loan_terms ⟨some 25000, some 780, some "new_car"⟩) = some (mkRat 38546 100) := by
  have hb2 : (truthyQ (some (25000 : ℚ)) && truthyQ (some (780 : ℚ))) = true := by
    decide
  have hrate : base_rate 780 + rate_adjustment "new_car" = mkRat 35 1000 := by
    rw [show base_rate 780 = mkRat 35 1000 from by norm_num [base_rate]]
    rw [show rate_adjustment "new_car" = 0 from by decide]
    rw [add_zero]
  have hap : amortized_payment 25000 (mkRat 35 1000) 72 =
      25000 * (mkRat 35 1000 / 12 * (1 + mkRat 35 1000 / 12) ^ 72) /
        ((1 + mkRat 35 1000 / 12) ^ 72 - 1) := by
    unfold amortized_payment
    rw [if_neg]
    rw [Rat.mkRat_eq_div]
    norm_num
  simp only [calculate_loan_terms, hb2, Bool.not_true, Bool.false_eq_true,
    if_false, Option.getD_some, calcMonthlyPayment, hrate,
    show default_term "new_car" = 72 from by decide, hap]
  rw [roundTo, round_eq, Rat.mkRat_eq_div, Rat.mkRat_eq_div]
  norm_num [Int.floor_eq_iff]

/-- Claim C2, counterexample: For `{loanAmount: 25000, creditScore: 780,
vehicleType: "new_car"}`, `calculate_loan_terms` does return rate `3.5%` and
term `72`, but the monthly payment is `385.46`, which is not within the
2-decimal rounding tolerance of the claimed `386.51`. -/
theorem claim_C2_counterexample :
    calcRatePercent (calculate_loan_terms ⟨some 25000, some 780, some "new_car"⟩) = some (mkRat 7 2) ∧
    calcTermMonths (calculate_loan_terms ⟨some 25000, some 780, some "new_car"⟩) = some 72 ∧
    calcMonthlyPayment (calculate_loan_terms ⟨some 25000, some 780, some "new_car"⟩) = some (mkRat 38546 100) ∧
    ¬ |(mkRat 38546 100 : ℚ) - mkRat 38651 100| ≤ mkRat 1 200 :=
  ⟨scenarioA_rate, scenarioA_term, scenarioA_payment, by
    rw [Rat.mkRat_eq_div, Rat.mkRat_eq_div, Rat.mkRat_eq_div]
    rw [abs_le]
    norm_num⟩

/-- Claim C2, amended: For `{loanAmount: 25000, creditScore: 780,
vehicleType: "new_car"}`, `calculate_loan_terms` returns an interest rate of
`3.5%`, a loan term of `72` months, and a monthly payment equal to `385.46`
(the 2-decimal rounding of the exact amortized payment). -/
theorem claim_C2_amended :
    calcRatePercent (calculate_loan_terms ⟨some 25000, some 780, some "new_car"⟩) = some (mkRat 7 2) ∧
    calcTermMonths (calculate_loan_terms ⟨some 25000, some 780, some "new_car"⟩) = some 72 ∧
    calcMonthlyPayment (calculate_loan_terms ⟨some 25000, some 780, some "new_car"⟩) = some (mkRat 38546 100) :=
  ⟨scenarioA_rate, scenarioA_term, scenarioA_payment⟩

end FunctionApp
